import Mathlib

/-!
Verification development for the tool-calling request handler of
`src/extension/prompt/node/defaultIntentRequestHandler.ts`.

The TypeScript code is shallowly embedded: the fetch-result classifier
(`processResult` and its helpers), the post-loop portion of `getResult`,
the top-level catch block, the option-to-behavior mapping for the tool-call
iteration limit, and `calculateTemperature` are translated into executable
Lean definitions.  Stateful side effects (calls to `turn.setResponse`,
stream pushes, telemetry) are made explicit as an ordered `Effect` list
returned alongside each result.
-/

namespace CopilotChat

/-- The closed set of terminal fetch-result kinds
(`ChatFetchResponseType` in `platform/chat/common/commonTypes`). -/
inductive ChatFetchResponseType where
  | Success
  | OffTopic
  | Canceled
  | QuotaExceeded
  | RateLimited
  | BadRequest
  | NetworkError
  | Failed
  | Filtered
  | PromptFiltered
  | AgentUnauthorized
  | AgentFailedDependency
  | Length
  | NotFound
  | Unknown
  | ExtensionBlocked
  | InvalidStatefulMarker
  deriving DecidableEq, Repr

/-- Filter categories attached to Filtered results; `FilterReason.prompt`
is the fixed category used on the PromptFiltered path. -/
inductive FilterReason where
  | prompt
  | copyright
  | other (label : String)
  deriving DecidableEq, Repr

/-- One model-requested tool invocation (id, name, arguments). -/
structure IToolCall where
  id : String
  name : String
  arguments : String
  deriving DecidableEq, Repr

/-- One request/response round: the model text response for that round and
the ordered tool calls it requested (`IToolCallRound`). -/
structure IToolCallRound where
  response : String
  toolCalls : List IToolCall
  deriving DecidableEq, Repr

/-- A terminal transport outcome (`ChatResponse`): its kind tag together
with the payload fields the handler reads (request id, the reason text
used to format error details, and the filter category of Filtered
results). -/
structure ChatResponse where
  type : ChatFetchResponseType
  requestId : String
  reason : String
  category : Option FilterReason
  deriving DecidableEq, Repr

/-- The error-detail payload placed on a chat result. -/
structure ErrorDetails where
  message : String
  deriving DecidableEq, Repr

/-- The result-metadata bag (`IResultMetadata`), restricted to the fields
the handler writes or reads: the accumulated rounds, the collected
tool-call results (keyed by call id, absent when empty), the filter
category, and the max-tool-calls flag.  Absent optional fields are the
defaults. -/
structure IResultMetadata where
  toolCallRounds : List IToolCallRound := []
  toolCallResults : Option (List (String × Option String)) := none
  filterReason : Option FilterReason := none
  maxToolCallsExceeded : Bool := false
  deriving DecidableEq, Repr

/-- A chat result (`ChatResult`): optional error details and optional
metadata.  The empty record models the literal empty object. -/
structure ChatResult where
  errorDetails : Option ErrorDetails := none
  metadata : Option IResultMetadata := none
  deriving DecidableEq, Repr

/-- The closed set of terminal turn statuses (`TurnStatus`). -/
inductive TurnStatus where
  | Success
  | Error
  | Cancelled
  | OffTopic
  | Filtered
  | PromptFiltered
  deriving DecidableEq, Repr

/-- The response record passed to `turn.setResponse` (message plus the
response-type string such as "meta", "model", "user", "server" or
"offtopic-detection"). -/
structure TurnResponse where
  message : String
  rtype : String
  deriving DecidableEq, Repr

/-- One call to `turn.setResponse(status, response, telemetryMessageId,
chatResult)`. -/
structure SetResponseCall where
  status : TurnStatus
  response : Option TurnResponse
  telemetryMessageId : Option String
  chatResult : ChatResult
  deriving DecidableEq, Repr

/-- An observable side effect of the handler, in program order:
a `turn.setResponse` call, a markdown push on the output stream, the
Success-path telemetry (markAsDisplayed, sendModelMessageTelemetry), the
top-level error log and exception telemetry, or the intent invocation. -/
inductive Effect where
  | setResponse (call : SetResponseCall)
  | markdown (text : String)
  | markAsDisplayed
  | sendModelMessageTelemetry (text : String)
  | logError (message : String)
  | sendTelemetryException (message : String)
  | invokeIntent
  deriving DecidableEq, Repr

/-- The markdown texts pushed to the output stream, in order. -/
def markdownPushes (effects : List Effect) : List String :=
  effects.filterMap fun e =>
    match e with
    | Effect.markdown s => some s
    | _ => none

/-- The `turn.setResponse` calls recorded, in order. -/
def setResponseCalls (effects : List Effect) : List SetResponseCall :=
  effects.filterMap fun e =>
    match e with
    | Effect.setResponse c => some c
    | _ => none

/-- The ambient configuration the classifier reads: the copilot plan
(used to format error details), the optional rate-limit configuration
flag of the handler options, the configured off-topic rejection message
(`IConversationOptions.rejectionMessage`), and the optional
`modifyErrorDetails` hook of the intent invocation. -/
structure HandlerEnv where
  copilotPlan : String
  hideRateLimitTimeEstimate : Option Bool
  rejectionMessage : String
  modifyErrorDetails : Option (ErrorDetails → ChatResponse → ErrorDetails)

/-- Modelled from the spec: `getErrorDetailsFromChatFetchError` is
imported from `platform/chat/common/commonTypes`, which is not part of
the excerpt.  Per the spec it formats a user-facing error detail from the
fetch error; on QuotaExceeded/RateLimited the detail may omit a time
estimate when so configured; NotFound and Unknown share identical
handling. -/
def getErrorDetailsFromChatFetchError (fetchResult : ChatResponse)
    (copilotPlan : String) (hideRateLimitTimeEstimate : Bool) : ErrorDetails :=
  match fetchResult.type with
  | ChatFetchResponseType.QuotaExceeded =>
      { message := "Quota exceeded for the " ++ copilotPlan ++ " plan." }
  | ChatFetchResponseType.RateLimited =>
      if hideRateLimitTimeEstimate then
        { message := "Rate limit reached. Please try again later." }
      else
        { message := "Rate limit reached. " ++ fetchResult.reason }
  | _ => { message := fetchResult.reason }

/-- The templated message of the empty-response failure
(`l10n.t` with the request id substituted). -/
def noResponseMessage (requestId : String) : String :=
  "The model unexpectedly did not return a response. Request ID: " ++ requestId

/-- `DefaultIntentRequestHandler.processSuccessfulFetchResult`: on empty
applied text with zero tool calls across all rounds, record an Error
response with the templated message and return a fresh error result;
otherwise record Success, mark the telemetry as displayed and send the
model-message telemetry. -/
def processSuccessfulFetchResult (appliedText requestId : String)
    (chatResult : ChatResult) (telemetryMessageId : Option String)
    (rounds : List IToolCallRound) : ChatResult × List Effect :=
  if appliedText.length == 0 && !(rounds.any fun r => r.toolCalls.length != 0) then
    let message := noResponseMessage requestId
    ({ errorDetails := some { message := message } },
     [Effect.setResponse
        { status := TurnStatus.Error,
          response := some { message := message, rtype := "meta" },
          telemetryMessageId := telemetryMessageId,
          chatResult := chatResult }])
  else
    (chatResult,
     [Effect.setResponse
        { status := TurnStatus.Success,
          response := some { message := appliedText, rtype := "model" },
          telemetryMessageId := telemetryMessageId,
          chatResult := chatResult },
      Effect.markAsDisplayed,
      Effect.sendModelMessageTelemetry appliedText])

/-- `DefaultIntentRequestHandler.processOffTopicFetchResult`: push the
configured rejection message, record an OffTopic response carrying it,
and return an empty chat result. -/
def processOffTopicFetchResult (env : HandlerEnv)
    (telemetryMessageId : Option String) : ChatResult × List Effect :=
  ({},
   [Effect.markdown env.rejectionMessage,
    Effect.setResponse
      { status := TurnStatus.OffTopic,
        response := some { message := env.rejectionMessage, rtype := "offtopic-detection" },
        telemetryMessageId := telemetryMessageId,
        chatResult := {} }])

/-- `DefaultIntentRequestHandler.processResult`: the classifier switch over
the fetch-result kind.  The thrown `Error("unreachable")` of the
InvalidStatefulMarker branch is modelled as the `Except.error` case. -/
def processResult (env : HandlerEnv) (fetchResult : ChatResponse)
    (responseMessage : String) (chatResult : Option ChatResult)
    (metadataFragment : IResultMetadata) (telemetryMessageId : Option String)
    (rounds : List IToolCallRound) :
    Except String (ChatResult × List Effect) :=
  match fetchResult.type with
  | ChatFetchResponseType.Success =>
      Except.ok (processSuccessfulFetchResult responseMessage fetchResult.requestId
        (chatResult.getD {}) telemetryMessageId rounds)
  | ChatFetchResponseType.OffTopic =>
      Except.ok (processOffTopicFetchResult env telemetryMessageId)
  | ChatFetchResponseType.Canceled =>
      let errorDetails := getErrorDetailsFromChatFetchError fetchResult env.copilotPlan false
      let res : ChatResult := { errorDetails := some errorDetails, metadata := some metadataFragment }
      Except.ok (res,
        [Effect.setResponse
          { status := TurnStatus.Cancelled,
            response := some { message := errorDetails.message, rtype := "user" },
            telemetryMessageId := telemetryMessageId,
            chatResult := res }])
  | ChatFetchResponseType.QuotaExceeded
  | ChatFetchResponseType.RateLimited =>
      let errorDetails := getErrorDetailsFromChatFetchError fetchResult env.copilotPlan
        (env.hideRateLimitTimeEstimate.getD false)
      let res : ChatResult := { errorDetails := some errorDetails, metadata := some metadataFragment }
      Except.ok (res,
        [Effect.setResponse
          { status := TurnStatus.Error,
            response := none,
            telemetryMessageId := telemetryMessageId,
            chatResult := res }])
  | ChatFetchResponseType.BadRequest
  | ChatFetchResponseType.NetworkError
  | ChatFetchResponseType.Failed =>
      let errorDetails := getErrorDetailsFromChatFetchError fetchResult env.copilotPlan false
      let res : ChatResult := { errorDetails := some errorDetails, metadata := some metadataFragment }
      Except.ok (res,
        [Effect.setResponse
          { status := TurnStatus.Error,
            response := some { message := errorDetails.message, rtype := "server" },
            telemetryMessageId := telemetryMessageId,
            chatResult := res }])
  | ChatFetchResponseType.Filtered =>
      let errorDetails := getErrorDetailsFromChatFetchError fetchResult env.copilotPlan false
      let res : ChatResult :=
        { errorDetails := some errorDetails,
          metadata := some { metadataFragment with filterReason := fetchResult.category } }
      Except.ok (res,
        [Effect.setResponse
          { status := TurnStatus.Filtered,
            response := none,
            telemetryMessageId := telemetryMessageId,
            chatResult := res }])
  | ChatFetchResponseType.PromptFiltered =>
      let errorDetails := getErrorDetailsFromChatFetchError fetchResult env.copilotPlan false
      let res : ChatResult :=
        { errorDetails := some errorDetails,
          metadata := some { metadataFragment with filterReason := some FilterReason.prompt } }
      Except.ok (res,
        [Effect.setResponse
          { status := TurnStatus.PromptFiltered,
            response := none,
            telemetryMessageId := telemetryMessageId,
            chatResult := res }])
  | ChatFetchResponseType.AgentUnauthorized =>
      Except.ok ({},
        [Effect.setResponse
          { status := TurnStatus.Error,
            response := none,
            telemetryMessageId := telemetryMessageId,
            chatResult := {} }])
  | ChatFetchResponseType.AgentFailedDependency
  | ChatFetchResponseType.Length =>
      let errorDetails := getErrorDetailsFromChatFetchError fetchResult env.copilotPlan false
      let res : ChatResult := { errorDetails := some errorDetails, metadata := some metadataFragment }
      Except.ok (res,
        [Effect.setResponse
          { status := TurnStatus.Error,
            response := none,
            telemetryMessageId := telemetryMessageId,
            chatResult := res }])
  | ChatFetchResponseType.NotFound
  | ChatFetchResponseType.Unknown =>
      let errorDetails := getErrorDetailsFromChatFetchError fetchResult env.copilotPlan false
      let res : ChatResult := { errorDetails := some errorDetails, metadata := some metadataFragment }
      Except.ok (res,
        [Effect.setResponse
          { status := TurnStatus.Error,
            response := none,
            telemetryMessageId := telemetryMessageId,
            chatResult := res }])
  | ChatFetchResponseType.ExtensionBlocked =>
      let errorDetails := getErrorDetailsFromChatFetchError fetchResult env.copilotPlan false
      let res : ChatResult := { errorDetails := some errorDetails, metadata := some metadataFragment }
      Except.ok (res,
        [Effect.setResponse
          { status := TurnStatus.Error,
            response := none,
            telemetryMessageId := telemetryMessageId,
            chatResult := res }])
  | ChatFetchResponseType.InvalidStatefulMarker =>
      Except.error "unreachable"

/-- Insert or overwrite one key of the JS-object model (insertion order
preserved, reassignment keeps the original position). -/
def insertKey (acc : List (String × Option String)) (k : String)
    (v : Option String) : List (String × Option String) :=
  if acc.any fun p => p.1 == k then
    acc.map fun p => if p.1 == k then (k, v) else p
  else
    acc ++ [(k, v)]

/-- `DefaultIntentRequestHandler._collectRelevantToolCallResults`: the
tool-call results keyed by every call id appearing in the rounds (missing
ids map to an absent value), or absent when no id appears at all. -/
def collectRelevantToolCallResults (toolCallRounds : List IToolCallRound)
    (toolCallResults : List (String × String)) :
    Option (List (String × Option String)) :=
  let calls := toolCallRounds.foldl (fun acc r => acc ++ r.toolCalls) []
  let pairs := calls.foldl (fun acc c => insertKey acc c.id (toolCallResults.lookup c.id)) []
  if pairs.length != 0 then some pairs else none

/-- The deep merge performed by `mixin(chatResult, { metadata:
metadataFragment }, true)`: the fragment carries exactly the
`toolCallRounds` and `toolCallResults` keys, which overwrite the existing
metadata while its other fields survive. -/
def mixinMetadata (base : Option IResultMetadata)
    (fragment : IResultMetadata) : IResultMetadata :=
  match base with
  | none => fragment
  | some m =>
      { m with
        toolCallRounds := fragment.toolCallRounds,
        toolCallResults := fragment.toolCallResults }

/-- The `IInternalRequestResult` fields of the loop outcome that the
post-loop code of `getResult` reads. -/
structure ResultDetails where
  response : ChatResponse
  toolCallRounds : List IToolCallRound
  toolCallResults : List (String × String)
  hadIgnoredFiles : Bool
  chatResult : Option ChatResult
  deriving Repr

/-- Modelled from the spec: `HAS_IGNORED_FILES_MESSAGE` is imported from
`platform/ignore/common/ignoreService`, which is not part of the excerpt;
the exact wording is immaterial to the claims. -/
def HAS_IGNORED_FILES_MESSAGE : String :=
  "Some files were excluded from the context due to content exclusion rules."

/-- Apply the optional `intentInvocation.modifyErrorDetails` hook to the
classified result, guarded exactly as in the source:
only when error details are present and the hook exists. -/
def applyModifyErrorDetails (env : HandlerEnv) (response : ChatResponse)
    (res : ChatResult) : ChatResult :=
  match res.errorDetails with
  | none => res
  | some ed =>
      match env.modifyErrorDetails with
      | none => res
      | some f => { res with errorDetails := some (f ed response) }

/-- The post-loop portion of `DefaultIntentRequestHandler.getResult`
(after `runWithToolCalling` returned `resultDetails`): compute the
response message from the last round, build the metadata fragment, mix it
into the chat result, classify via `processResult`, apply the optional
error-details hook, and push the ignored-files notice when the
prompt had ignored files. -/
def afterLoop (env : HandlerEnv) (telemetryMessageId : Option String)
    (d : ResultDetails) : Except String (ChatResult × List Effect) :=
  let chatResult0 := d.chatResult.getD {}
  let metadataFragment : IResultMetadata :=
    { toolCallRounds := d.toolCallRounds,
      toolCallResults := collectRelevantToolCallResults d.toolCallRounds d.toolCallResults }
  let responseMessage := ((d.toolCallRounds.getLast?).map fun r => r.response).getD ""
  let mixed : ChatResult :=
    { chatResult0 with metadata := some (mixinMetadata chatResult0.metadata metadataFragment) }
  match processResult env d.response responseMessage (some mixed) metadataFragment
      telemetryMessageId d.toolCallRounds with
  | Except.error e => Except.error e
  | Except.ok (res, effects) =>
      let res := applyModifyErrorDetails env d.response res
      let effects :=
        if d.hadIgnoredFiles then effects ++ [Effect.markdown HAS_IGNORED_FILES_MESSAGE]
        else effects
      Except.ok (res, effects)

/-- The request fields `getResult` inspects at its entry: whether
`isToolCallLimitCancellation(request)` holds. -/
structure ChatRequest where
  toolCallLimitCancellation : Bool
  deriving DecidableEq, Repr

/-- The exception taxonomy distinguished by the top-level catch block of
`getResult`: a `ToolCallCancelledError`, a cancellation error, an
`EmptyPromptError`, or any other exception with its message. -/
inductive ThrownError where
  | toolCallCancelled (message : String)
  | cancellation
  | emptyPrompt
  | other (message : String)
  deriving DecidableEq, Repr

/-- What the body of the try block does once past the initial cancellation
check: return early on the second cancellation check, return after a
handled confirmation, throw, or complete the loop with result details. -/
inductive RunOutcome where
  | cancelledAfterInvoke
  | confirmationHandled
  | threw (e : ThrownError)
  | completed (d : ResultDetails)
  deriving Repr

/-- Modelled from the spec: the `CanceledResult` constant is imported from
`platform/chat/common/commonTypes`, which is not part of the excerpt; its
exact content is immaterial to the claims. -/
def CanceledResult : ChatResult :=
  { errorDetails := some { message := "Canceled" } }

/-- The friendly markdown text pushed when the request is a tool-call
limit cancellation. -/
def friendlyLimitMessage : String :=
  "Let me know if there\x27s anything else I can help with!"

/-- The top-level catch block of `getResult`: tool-call cancellation
records a Cancelled response and yields an empty result; cancellation
errors yield the canned canceled result; empty-prompt errors yield an
empty result; every other exception is logged, reported via telemetry,
recorded as an Error response and surfaced as error details. -/
def catchBlock (e : ThrownError) : ChatResult × List Effect :=
  match e with
  | ThrownError.toolCallCancelled message =>
      ({},
       [Effect.setResponse
          { status := TurnStatus.Cancelled,
            response := some { message := message, rtype := "meta" },
            telemetryMessageId := none,
            chatResult := {} }])
  | ThrownError.cancellation => (CanceledResult, [])
  | ThrownError.emptyPrompt => ({}, [])
  | ThrownError.other message =>
      let chatResult : ChatResult := { errorDetails := some { message := message } }
      (chatResult,
       [Effect.logError message,
        Effect.sendTelemetryException message,
        Effect.setResponse
          { status := TurnStatus.Error,
            response := some { message := message, rtype := "meta" },
            telemetryMessageId := none,
            chatResult := chatResult }])

/-- The body of the try block of `getResult`: the initial cancellation
check precedes the intent invocation; a thrown classifier assertion
(the Except error of `afterLoop`) propagates as a generic exception. -/
def tryBody (env : HandlerEnv) (tokenCancelled : Bool) (outcome : RunOutcome)
    (telemetryMessageId : Option String) :
    Except ThrownError (ChatResult × List Effect) :=
  if tokenCancelled then Except.ok (CanceledResult, [])
  else
    match outcome with
    | RunOutcome.cancelledAfterInvoke => Except.ok (CanceledResult, [Effect.invokeIntent])
    | RunOutcome.confirmationHandled => Except.ok ({}, [Effect.invokeIntent])
    | RunOutcome.threw e => Except.error e
    | RunOutcome.completed d =>
        match afterLoop env telemetryMessageId d with
        | Except.error s => Except.error (ThrownError.other s)
        | Except.ok (res, effects) => Except.ok (res, Effect.invokeIntent :: effects)

/-- `DefaultIntentRequestHandler.getResult`: the tool-call-limit
cancellation fast path precedes the try block; exceptions of the body are
routed to the catch block and never rethrown. -/
def getResult (env : HandlerEnv) (req : ChatRequest) (tokenCancelled : Bool)
    (outcome : RunOutcome) (telemetryMessageId : Option String) :
    ChatResult × List Effect :=
  if req.toolCallLimitCancellation then
    ({}, [Effect.markdown friendlyLimitMessage])
  else
    match tryBody env tokenCancelled outcome telemetryMessageId with
    | Except.ok r => r
    | Except.error e => catchBlock e

/-- The behavior on hitting the tool-call iteration limit
(`ToolCallLimitBehavior` in `intents/node/toolCallingLoop.ts`). -/
inductive ToolCallLimitBehavior where
  | Confirm
  | Stop
  deriving DecidableEq, Repr

/-- `IDefaultIntentRequestHandlerOptions`, restricted to the fields the
claims read. -/
structure IDefaultIntentRequestHandlerOptions where
  maxToolCallIterations : Nat
  confirmOnMaxToolIterations : Option Bool := none
  temperature : Option ℚ := none
  hideRateLimitTimeEstimate : Option Bool := none
  deriving DecidableEq, Repr

/-- The mapping of `runWithToolCalling`: the loop is configured with
`Confirm` unless `confirmOnMaxToolIterations` is explicitly `false`, in
which case it is configured with `Stop`. -/
def onHitToolCallLimit (opts : IDefaultIntentRequestHandlerOptions) :
    ToolCallLimitBehavior :=
  if opts.confirmOnMaxToolIterations != some false then ToolCallLimitBehavior.Confirm
  else ToolCallLimitBehavior.Stop

/-- One terminal transport outcome of a round of the loop: the result
kind, the model text of the round, and the requested tool calls. -/
structure FetchOutcome where
  rtype : ChatFetchResponseType
  response : String
  toolCalls : List IToolCall
  deriving DecidableEq, Repr

/-- The terminal snapshot of one loop run: the accumulated rounds, the
number of fetches issued, the `maxToolCallsExceeded` metadata flag, and
whether a confirmation prompt was surfaced (suspending the loop). -/
structure LoopResult where
  rounds : List IToolCallRound
  fetchCount : Nat
  maxToolCallsExceeded : Bool
  confirmationSurfaced : Bool
  deriving DecidableEq, Repr

/-- Modelled from the spec: the iteration of the `ToolCallingLoop` state
machine of `intents/node/toolCallingLoop.ts`, which is not part of the
excerpt, fuelled by the remaining round budget.  Each round fetches the
next terminal result, appends the completed round, and evaluates the stop
condition: a non-Success result or a round without tool calls terminates
normally; a round count at the configured limit terminates with the
`maxToolCallsExceeded` flag under Stop behavior, or surfaces a
confirmation prompt and suspends under Confirm behavior; otherwise the
loop re-enters prompt building.  From the `runLoop` entry the fuel never
runs out before the stop condition fires (proved below), so the
fuel-exhaustion fallback is unreachable. -/
def runLoopGo (behavior : ToolCallLimitBehavior) (limit : Nat)
    (fetchAt : Nat → FetchOutcome) :
    Nat → List IToolCallRound → LoopResult
  | 0, rounds =>
      let f := fetchAt rounds.length
      let newRounds := rounds ++ [{ response := f.response, toolCalls := f.toolCalls }]
      if f.rtype != ChatFetchResponseType.Success || f.toolCalls.isEmpty then
        { rounds := newRounds, fetchCount := newRounds.length,
          maxToolCallsExceeded := false, confirmationSurfaced := false }
      else if limit ≤ newRounds.length then
        match behavior with
        | ToolCallLimitBehavior.Stop =>
            { rounds := newRounds, fetchCount := newRounds.length,
              maxToolCallsExceeded := true, confirmationSurfaced := false }
        | ToolCallLimitBehavior.Confirm =>
            { rounds := newRounds, fetchCount := newRounds.length,
              maxToolCallsExceeded := false, confirmationSurfaced := true }
      else
        { rounds := newRounds, fetchCount := newRounds.length,
          maxToolCallsExceeded := false, confirmationSurfaced := false }
  | fuel + 1, rounds =>
      let f := fetchAt rounds.length
      let newRounds := rounds ++ [{ response := f.response, toolCalls := f.toolCalls }]
      if f.rtype != ChatFetchResponseType.Success || f.toolCalls.isEmpty then
        { rounds := newRounds, fetchCount := newRounds.length,
          maxToolCallsExceeded := false, confirmationSurfaced := false }
      else if limit ≤ newRounds.length then
        match behavior with
        | ToolCallLimitBehavior.Stop =>
            { rounds := newRounds, fetchCount := newRounds.length,
              maxToolCallsExceeded := true, confirmationSurfaced := false }
        | ToolCallLimitBehavior.Confirm =>
            { rounds := newRounds, fetchCount := newRounds.length,
              maxToolCallsExceeded := false, confirmationSurfaced := true }
      else runLoopGo behavior limit fetchAt fuel newRounds

/-- Modelled from the spec: run the tool-calling loop from an empty round
history with the configured limit and limit behavior. -/
def runLoop (behavior : ToolCallLimitBehavior) (limit : Nat)
    (fetchAt : Nat → FetchOutcome) : LoopResult :=
  runLoopGo behavior limit fetchAt limit []

/-- `DefaultToolCallingLoop.calculateTemperature`: on a retried request
(attempt strictly positive) scale the base temperature by the attempt
count plus one, capped at the fixed ceiling of 2; on the first attempt
use the base temperature unchanged. -/
def calculateTemperature (temperature : ℚ) (attempt : Nat) : ℚ :=
  if attempt > 0 then min (temperature * ((attempt : ℚ) + 1)) 2
  else temperature

/-- The guarantees of one loop run under a limit and a limit behavior:
one fetch per round; the round count never exceeds the limit; the
`maxToolCallsExceeded` flag is set exactly on the Stop path at the limit;
a confirmation is surfaced exactly on the Confirm path at the limit; and
reaching the limit on a Success round with pending tool calls triggers
the configured limit behavior. -/
def LoopResultOk (behavior : ToolCallLimitBehavior) (limit : Nat)
    (fetchAt : Nat → FetchOutcome) (r : LoopResult) : Prop :=
  r.rounds.length ≤ limit ∧
  r.fetchCount = r.rounds.length ∧
  (r.maxToolCallsExceeded = true →
    behavior = ToolCallLimitBehavior.Stop ∧ r.rounds.length = limit) ∧
  (r.confirmationSurfaced = true →
    behavior = ToolCallLimitBehavior.Confirm ∧ r.rounds.length = limit) ∧
  (r.rounds.length = limit →
    (fetchAt (limit - 1)).rtype = ChatFetchResponseType.Success →
    (fetchAt (limit - 1)).toolCalls ≠ [] →
    (behavior = ToolCallLimitBehavior.Stop → r.maxToolCallsExceeded = true) ∧
    (behavior = ToolCallLimitBehavior.Confirm → r.confirmationSurfaced = true))

/-- The effect list of a classified outcome (empty on the unreachable
assertion path). -/
def exceptEffects (r : Except String (ChatResult × List Effect)) : List Effect :=
  match r with
  | Except.ok (_, effects) => effects
  | Except.error _ => []

/-- A concrete environment used to instantiate the theorems. -/
def envW : HandlerEnv :=
  { copilotPlan := "individual",
    hideRateLimitTimeEstimate := none,
    rejectionMessage := "Sorry, but I can only assist with programming related questions.",
    modifyErrorDetails := none }

/-- A concrete off-topic loop outcome whose prompt had ignored files. -/
def offTopicDetails : ResultDetails :=
  { response :=
      { type := ChatFetchResponseType.OffTopic, requestId := "req-7",
        reason := "", category := none },
    toolCallRounds := [],
    toolCallResults := [],
    hadIgnoredFiles := true,
    chatResult := none }

/-- Concrete handler options selecting Stop behavior at a limit of 2. -/
def optsStop : IDefaultIntentRequestHandlerOptions :=
  { maxToolCallIterations := 2, confirmOnMaxToolIterations := some false }

/-- A concrete transport that always succeeds with one pending tool
call. -/
def alwaysToolFetch : Nat → FetchOutcome := fun _ =>
  { rtype := ChatFetchResponseType.Success,
    response := "working on it",
    toolCalls := [{ id := "call-1", name := "readFile", arguments := "" }] }

/-- Helper: on every kind except InvalidStatefulMarker, the classifier
returns a result and records exactly one `setResponse` call. -/
lemma processResult_ok_single (env : HandlerEnv) (t : ChatFetchResponseType)
    (rid reason : String) (cat : Option FilterReason) (responseMessage : String)
    (chatResult : Option ChatResult) (metadataFragment : IResultMetadata)
    (telemetryMessageId : Option String) (rounds : List IToolCallRound)
    (h : t ≠ ChatFetchResponseType.InvalidStatefulMarker) :
    ∃ res effects,
      processResult env ⟨t, rid, reason, cat⟩ responseMessage chatResult metadataFragment
        telemetryMessageId rounds = Except.ok (res, effects) ∧
      (setResponseCalls effects).length = 1 := by
  cases t
  case InvalidStatefulMarker => exact absurd rfl h
  case Success =>
    simp only [processResult, processSuccessfulFetchResult]
    split
    · exact ⟨_, _, rfl, rfl⟩
    · exact ⟨_, _, rfl, rfl⟩
  all_goals exact ⟨_, _, rfl, rfl⟩

/-- Claim C1: for every terminal fetch-result kind other than
InvalidStatefulMarker, `processResult` returns exactly one chat result
and records the Turn response via `setResponse` exactly once, with
exactly one TurnStatus. -/
theorem C1_classifier_marks_turn_exactly_once (env : HandlerEnv)
    (fetchResult : ChatResponse) (responseMessage : String)
    (chatResult : Option ChatResult) (metadataFragment : IResultMetadata)
    (telemetryMessageId : Option String) (rounds : List IToolCallRound)
    (h : fetchResult.type ≠ ChatFetchResponseType.InvalidStatefulMarker) :
    (processResult env fetchResult responseMessage chatResult metadataFragment
        telemetryMessageId rounds).toOption.map
      (fun p => (setResponseCalls p.2).length) = some 1 := by
  obtain ⟨t, rid, reason, cat⟩ := fetchResult
  obtain ⟨res, effects, heq, hlen⟩ :=
    processResult_ok_single env t rid reason cat responseMessage chatResult
      metadataFragment telemetryMessageId rounds h
  rw [heq]
  simp [Except.toOption, hlen]

/-- Claim C1 witness at a concrete Canceled result. -/
theorem C1_classifier_marks_turn_exactly_once_witness :
    (processResult envW
        ⟨ChatFetchResponseType.Canceled, "req-1", "canceled by user", none⟩
        "" none {} none []).toOption.map
      (fun p => (setResponseCalls p.2).length) = some 1 :=
  C1_classifier_marks_turn_exactly_once envW
    ⟨ChatFetchResponseType.Canceled, "req-1", "canceled by user", none⟩
    "" none {} none [] (by decide)

/-- Claim C7: the InvalidStatefulMarker branch of `processResult` is a
fatal assertion: every input of that kind throws rather than producing a
chat result, and every input of any other kind does not reach the
throwing branch. -/
theorem C7_invalid_stateful_marker_unreachable (env : HandlerEnv)
    (fetchResult : ChatResponse) (responseMessage : String)
    (chatResult : Option ChatResult) (metadataFragment : IResultMetadata)
    (telemetryMessageId : Option String) (rounds : List IToolCallRound) :
    (fetchResult.type = ChatFetchResponseType.InvalidStatefulMarker →
      processResult env fetchResult responseMessage chatResult metadataFragment
        telemetryMessageId rounds = Except.error "unreachable") ∧
    (fetchResult.type ≠ ChatFetchResponseType.InvalidStatefulMarker →
      (processResult env fetchResult responseMessage chatResult metadataFragment
        telemetryMessageId rounds).isOk = true) := by
  obtain ⟨t, rid, reason, cat⟩ := fetchResult
  constructor
  · intro h
    simp only at h
    subst h
    rfl
  · intro h
    obtain ⟨res, effects, heq, -⟩ :=
      processResult_ok_single env t rid reason cat responseMessage chatResult
        metadataFragment telemetryMessageId rounds h
    rw [heq]
    rfl

/-- Claim C7 witness: the assertion fires at a concrete
InvalidStatefulMarker input and does not fire at a concrete Unknown
input. -/
theorem C7_invalid_stateful_marker_unreachable_witness :
    processResult envW
        ⟨ChatFetchResponseType.InvalidStatefulMarker, "req-2", "", none⟩
        "" none {} none [] = Except.error "unreachable" ∧
    (processResult envW
        ⟨ChatFetchResponseType.Unknown, "req-2", "", none⟩
        "" none {} none []).isOk = true :=
  ⟨(C7_invalid_stateful_marker_unreachable envW
      ⟨ChatFetchResponseType.InvalidStatefulMarker, "req-2", "", none⟩
      "" none {} none []).1 rfl,
   (C7_invalid_stateful_marker_unreachable envW
      ⟨ChatFetchResponseType.Unknown, "req-2", "", none⟩
      "" none {} none []).2 (by decide)⟩

/-- Claim C8: two fetch results identical except for their NotFound
versus Unknown tag are classified identically: same TurnStatus, same
error details, same recorded Turn response. -/
theorem C8_notfound_unknown_identical (env : HandlerEnv)
    (rid reason : String) (cat : Option FilterReason) (responseMessage : String)
    (chatResult : Option ChatResult) (metadataFragment : IResultMetadata)
    (telemetryMessageId : Option String) (rounds : List IToolCallRound) :
    processResult env ⟨ChatFetchResponseType.NotFound, rid, reason, cat⟩
        responseMessage chatResult metadataFragment telemetryMessageId rounds
      = processResult env ⟨ChatFetchResponseType.Unknown, rid, reason, cat⟩
        responseMessage chatResult metadataFragment telemetryMessageId rounds := rfl

/-- Claim C9: an AgentUnauthorized result records an Error status with an
absent response record and returns a chat result with no error
details. -/
theorem C9_agent_unauthorized_silent (env : HandlerEnv)
    (rid reason : String) (cat : Option FilterReason) (responseMessage : String)
    (chatResult : Option ChatResult) (metadataFragment : IResultMetadata)
    (telemetryMessageId : Option String) (rounds : List IToolCallRound) :
    processResult env ⟨ChatFetchResponseType.AgentUnauthorized, rid, reason, cat⟩
        responseMessage chatResult metadataFragment telemetryMessageId rounds
      = Except.ok ({},
          [Effect.setResponse
            { status := TurnStatus.Error,
              response := none,
              telemetryMessageId := telemetryMessageId,
              chatResult := {} }]) := rfl

/-- Claim C3 counterexample: at attempt 0 the code returns the base
temperature unclamped, so a base of 3 yields 3 while the claimed formula
min(base * (k + 1), 2) yields 2. -/
theorem C3_temperature_counterexample :
    calculateTemperature 3 0 ≠ min ((3 : ℚ) * (((0 : Nat) : ℚ) + 1)) 2 := by
  norm_num [calculateTemperature]

/-- Claim C3 amended: for every attempt k at least 1, and for attempt 0
whenever the base temperature is at most the ceiling 2, the temperature
used equals min(base * (k + 1), 2); at attempt 0 with a base above the
ceiling the code returns the base unchanged instead. -/
theorem C3_temperature_formula (base : ℚ) (k : Nat)
    (h : 1 ≤ k ∨ base ≤ 2) :
    calculateTemperature base k = min (base * ((k : ℚ) + 1)) 2 := by
  cases k with
  | zero =>
      have hb : base ≤ 2 := by
        rcases h with h | h
        · omega
        · exact h
      simp [calculateTemperature, min_eq_left hb]
  | succ n =>
      simp [calculateTemperature]

/-- Claim C3 witness: at base 0.7 and attempt 2 the formula applies and
the temperature is capped at 2. -/
theorem C3_temperature_formula_witness :
    calculateTemperature (7 / 10) 2 = min (((7 : ℚ) / 10) * (((2 : Nat) : ℚ) + 1)) 2 ∧
    calculateTemperature (7 / 10) 2 = 2 ∧
    calculateTemperature (7 / 10) 0 = 7 / 10 :=
  ⟨C3_temperature_formula (7 / 10) 2 (Or.inl (by norm_num)),
   by norm_num [calculateTemperature],
   by norm_num [calculateTemperature]⟩

/-- Claim C4: a Success result with empty applied text and zero tool
calls across the accumulated rounds yields an Error status whose recorded
and returned message is the templated no-response message carrying the
request id, and the only recorded side effect is that single
`setResponse` call. -/
theorem C4_empty_success_is_error (env : HandlerEnv)
    (rid reason : String) (cat : Option FilterReason) (responseMessage : String)
    (chatResult : Option ChatResult) (metadataFragment : IResultMetadata)
    (telemetryMessageId : Option String) (rounds : List IToolCallRound)
    (hmsg : responseMessage.length = 0)
    (hrounds : (rounds.any fun r => r.toolCalls.length != 0) = false) :
    processResult env ⟨ChatFetchResponseType.Success, rid, reason, cat⟩
        responseMessage chatResult metadataFragment telemetryMessageId rounds
      = Except.ok ({ errorDetails := some { message := noResponseMessage rid } },
          [Effect.setResponse
            { status := TurnStatus.Error,
              response := some { message := noResponseMessage rid, rtype := "meta" },
              telemetryMessageId := telemetryMessageId,
              chatResult := chatResult.getD {} }]) ∧
    (∃ a, noResponseMessage rid = a ++ rid) := by
  constructor
  · simp [processResult, processSuccessfulFetchResult, hmsg, hrounds]
  · exact ⟨"The model unexpectedly did not return a response. Request ID: ", rfl⟩

/-- Claim C4 witness at a concrete empty Success result. -/
theorem C4_empty_success_is_error_witness :
    processResult envW ⟨ChatFetchResponseType.Success, "req-9", "", none⟩
        "" none {} none []
      = Except.ok ({ errorDetails := some { message := noResponseMessage "req-9" } },
          [Effect.setResponse
            { status := TurnStatus.Error,
              response := some { message := noResponseMessage "req-9", rtype := "meta" },
              telemetryMessageId := none,
              chatResult := {} }]) ∧
    (∃ a, noResponseMessage "req-9" = a ++ "req-9") :=
  C4_empty_success_is_error envW "req-9" "" none "" none {} none [] rfl rfl

/-- Claim C6: an exception of the orchestration body that is neither a
tool cancellation, a user cancellation, nor an empty-prompt error is
caught at the top level, logged, reported via exception telemetry,
recorded on the Turn as an Error with the exception message, and
surfaced as the error details of the returned chat result. -/
theorem C6_uncaught_exception_handled (env : HandlerEnv) (req : ChatRequest)
    (message : String) (telemetryMessageId : Option String)
    (hreq : req.toolCallLimitCancellation = false) :
    getResult env req false (RunOutcome.threw (ThrownError.other message))
        telemetryMessageId
      = ({ errorDetails := some { message := message } },
         [Effect.logError message,
          Effect.sendTelemetryException message,
          Effect.setResponse
            { status := TurnStatus.Error,
              response := some { message := message, rtype := "meta" },
              telemetryMessageId := none,
              chatResult := { errorDetails := some { message := message } } }]) := by
  simp [getResult, hreq, tryBody, catchBlock]

/-- Claim C6 witness at a concrete exception message. -/
theorem C6_uncaught_exception_handled_witness :
    getResult envW { toolCallLimitCancellation := false } false
        (RunOutcome.threw (ThrownError.other "boom")) none
      = ({ errorDetails := some { message := "boom" } },
         [Effect.logError "boom",
          Effect.sendTelemetryException "boom",
          Effect.setResponse
            { status := TurnStatus.Error,
              response := some { message := "boom", rtype := "meta" },
              telemetryMessageId := none,
              chatResult := { errorDetails := some { message := "boom" } } }]) :=
  C6_uncaught_exception_handled envW { toolCallLimitCancellation := false }
    "boom" none rfl

/-- Claim C10: when the request is a tool-call-limit cancellation,
`getResult` pushes the single friendly markdown message and returns an
empty chat result immediately: the intent is never invoked, no loop
runs, and the Turn response is never set. -/
theorem C10_limit_cancellation_fast_path (env : HandlerEnv) (req : ChatRequest)
    (tokenCancelled : Bool) (outcome : RunOutcome)
    (telemetryMessageId : Option String)
    (hreq : req.toolCallLimitCancellation = true) :
    getResult env req tokenCancelled outcome telemetryMessageId
      = ({}, [Effect.markdown friendlyLimitMessage]) := by
  simp [getResult, hreq]

/-- Claim C10 witness at a concrete limit-cancellation request. -/
theorem C10_limit_cancellation_fast_path_witness :
    getResult envW { toolCallLimitCancellation := true } false
        RunOutcome.confirmationHandled none
      = ({}, [Effect.markdown friendlyLimitMessage]) :=
  C10_limit_cancellation_fast_path envW { toolCallLimitCancellation := true }
    false RunOutcome.confirmationHandled none rfl

/-- Claim C5 counterexample: on an OffTopic result whose prompt had
ignored files, the handler pushes the ignored-files notice after the
rejection message, so the rejection message is not the only content
pushed to the output stream. -/
theorem C5_offtopic_counterexample :
    markdownPushes (exceptEffects (afterLoop envW none offTopicDetails))
      ≠ [envW.rejectionMessage] := by decide

/-- Claim C5 amended: on every OffTopic result the handler pushes the
configured rejection message, records the Turn status OffTopic with that
rejection message as the response, and returns an empty chat result; the
rejection message is the only content pushed unless the prompt had
ignored files, in which case the fixed ignored-files notice follows
it. -/
theorem C5_offtopic_handling (env : HandlerEnv)
    (telemetryMessageId : Option String) (d : ResultDetails)
    (h : d.response.type = ChatFetchResponseType.OffTopic) :
    (afterLoop env telemetryMessageId d).toOption.map Prod.fst = some {} ∧
    markdownPushes (exceptEffects (afterLoop env telemetryMessageId d))
      = [env.rejectionMessage]
        ++ (if d.hadIgnoredFiles then [HAS_IGNORED_FILES_MESSAGE] else []) ∧
    setResponseCalls (exceptEffects (afterLoop env telemetryMessageId d))
      = [{ status := TurnStatus.OffTopic,
           response := some { message := env.rejectionMessage, rtype := "offtopic-detection" },
           telemetryMessageId := telemetryMessageId,
           chatResult := {} }] := by
  obtain ⟨resp, toolCallRounds, toolCallResults, hadIgnoredFiles, chatResult⟩ := d
  simp only at h
  simp only [afterLoop, processResult, h, processOffTopicFetchResult,
    applyModifyErrorDetails]
  cases hadIgnoredFiles <;>
    simp [exceptEffects, markdownPushes, setResponseCalls, Except.toOption]

/-- Claim C5 witness at the concrete off-topic outcome with ignored
files. -/
theorem C5_offtopic_handling_witness :
    (afterLoop envW none offTopicDetails).toOption.map Prod.fst = some {} ∧
    markdownPushes (exceptEffects (afterLoop envW none offTopicDetails))
      = [envW.rejectionMessage]
        ++ (if offTopicDetails.hadIgnoredFiles then [HAS_IGNORED_FILES_MESSAGE] else []) ∧
    setResponseCalls (exceptEffects (afterLoop envW none offTopicDetails))
      = [{ status := TurnStatus.OffTopic,
           response := some { message := envW.rejectionMessage, rtype := "offtopic-detection" },
           telemetryMessageId := none,
           chatResult := {} }] :=
  C5_offtopic_handling envW none offTopicDetails rfl

/-- Helper: the loop iteration preserves the limit guarantees whenever
the fuel equals the remaining round budget and is positive. -/
lemma runLoopGo_invariant (behavior : ToolCallLimitBehavior) (limit : Nat)
    (fetchAt : Nat → FetchOutcome) :
    ∀ (fuel : Nat) (rounds : List IToolCallRound),
      rounds.length + fuel = limit → 1 ≤ fuel →
      LoopResultOk behavior limit fetchAt
        (runLoopGo behavior limit fetchAt fuel rounds) := by
  intro fuel
  induction fuel with
  | zero =>
      intro rounds _ hge
      exact absurd hge (by omega)
  | succ n ih =>
      intro rounds hsum _
      simp only [runLoopGo]
      split
      · rename_i hterm
        refine ⟨?_, rfl, by simp, by simp, ?_⟩
        · simp only [List.length_append, List.length_cons, List.length_nil]
          omega
        · intro hlen hsucc htools
          simp only [List.length_append, List.length_cons, List.length_nil] at hlen
          have hidx : rounds.length = limit - 1 := by omega
          rw [hidx] at hterm
          rw [hsucc] at hterm
          simp only [bne_self_eq_false, Bool.false_or] at hterm
          exact absurd (List.isEmpty_iff.mp hterm) htools
      · split
        · rename_i hlim
          cases behavior with
          | Stop =>
              refine ⟨?_, rfl, ?_, by simp, ?_⟩
              · simp only [List.length_append, List.length_cons, List.length_nil]
                omega
              · intro _
                refine ⟨rfl, ?_⟩
                simp only [List.length_append, List.length_cons, List.length_nil] at hlim ⊢
                omega
              · intro _ _ _
                exact ⟨fun _ => rfl, fun hc => by simp at hc⟩
          | Confirm =>
              refine ⟨?_, rfl, by simp, ?_, ?_⟩
              · simp only [List.length_append, List.length_cons, List.length_nil]
                omega
              · intro _
                refine ⟨rfl, ?_⟩
                simp only [List.length_append, List.length_cons, List.length_nil] at hlim ⊢
                omega
              · intro _ _ _
                exact ⟨fun hs => by simp at hs, fun _ => rfl⟩
        · rename_i hnlim
          refine ih _ ?_ ?_
          · simp only [List.length_append, List.length_cons, List.length_nil]
            omega
          · simp only [List.length_append, List.length_cons, List.length_nil] at hnlim
            omega

/-- Claim C2: with the behavior selected by the handler options
(Confirm unless `confirmOnMaxToolIterations` is explicitly false), a loop
run issues one fetch per round, its round count never exceeds the
configured iteration limit, under Stop behavior reaching the limit with a
Success round holding pending tool calls terminates immediately with
`maxToolCallsExceeded` set and no further fetch, and under Confirm
behavior it surfaces a confirmation prompt and suspends instead. -/
theorem C2_tool_call_limit (opts : IDefaultIntentRequestHandlerOptions)
    (fetchAt : Nat → FetchOutcome)
    (hpos : 1 ≤ opts.maxToolCallIterations) :
    LoopResultOk (onHitToolCallLimit opts) opts.maxToolCallIterations fetchAt
      (runLoop (onHitToolCallLimit opts) opts.maxToolCallIterations fetchAt) ∧
    (opts.confirmOnMaxToolIterations = some false →
      onHitToolCallLimit opts = ToolCallLimitBehavior.Stop) ∧
    (opts.confirmOnMaxToolIterations ≠ some false →
      onHitToolCallLimit opts = ToolCallLimitBehavior.Confirm) := by
  refine ⟨?_, ?_, ?_⟩
  · exact runLoopGo_invariant (onHitToolCallLimit opts) opts.maxToolCallIterations
      fetchAt opts.maxToolCallIterations [] (by simp) hpos
  · intro h
    simp [onHitToolCallLimit, h]
  · intro h
    simp [onHitToolCallLimit, h]

/-- Claim C2 witness: Stop behavior at a concrete limit of 2 against a
transport that always requests another tool call. -/
theorem C2_tool_call_limit_witness :
    LoopResultOk (onHitToolCallLimit optsStop) optsStop.maxToolCallIterations
      alwaysToolFetch
      (runLoop (onHitToolCallLimit optsStop) optsStop.maxToolCallIterations
        alwaysToolFetch) ∧
    (optsStop.confirmOnMaxToolIterations = some false →
      onHitToolCallLimit optsStop = ToolCallLimitBehavior.Stop) ∧
    (optsStop.confirmOnMaxToolIterations ≠ some false →
      onHitToolCallLimit optsStop = ToolCallLimitBehavior.Confirm) :=
  C2_tool_call_limit optsStop alwaysToolFetch (by decide)

end CopilotChat
